import Mathlib

/-!
Verification of the wish/kraken excerpt: the persisted-retry interface
contracts (lib/persistedretry/interfaces.go) and the agent bootstrap
(agent/cmd/cmd.go), embedded shallowly in Lean 4.
-/

namespace persistedretry

/-- Shallow model of the Go types appearing in the interface signatures of
lib/persistedretry/interfaces.go. -/
inductive GoType
  | task
  | slice (elem : GoType)
  | error
  deriving DecidableEq, Repr

/-- One method of a Go interface: its name, argument types and result types. -/
structure Method where
  name : String
  args : List GoType
  rets : List GoType
  deriving DecidableEq, Repr

/-- Methods required by the Task interface. Source: interfaces.go line 4,
which declares Task as the empty interface, requiring no methods. -/
def TaskMethods : List Method := []

/-- Methods of the Store interface, in source order (interfaces.go lines 7-14). -/
def StoreMethods : List Method :=
  [ ⟨"GetFailed", [], [GoType.slice GoType.task, GoType.error]⟩,
    ⟨"GetPending", [], [GoType.slice GoType.task, GoType.error]⟩,
    ⟨"MarkPending", [GoType.task], [GoType.error]⟩,
    ⟨"MarkFailed", [GoType.task], [GoType.error]⟩,
    ⟨"MarkDone", [GoType.task], [GoType.error]⟩,
    ⟨"Close", [], [GoType.error]⟩ ]

/-- Methods of the Executor interface (interfaces.go lines 17-19). -/
def ExecutorMethods : List Method :=
  [ ⟨"Exec", [GoType.task], [GoType.error]⟩ ]

/-- C1, counterexample: the claim that a Key accessor is part of the required
Task interface is false — the Task interface declared in the source requires
no method named Key (it requires no methods at all). -/
theorem task_key_claim_false :
    ¬ ∃ m, m ∈ TaskMethods ∧ m.name = "Key" := by
  rintro ⟨m, hm, _⟩
  simp [TaskMethods] at hm

/-- C1, amended: the Task contract requires no operations of a concrete task
kind — Task is declared as the empty interface, so every value is usable as a
Task and no Key accessor is part of the required interface. -/
theorem task_interface_empty : TaskMethods = [] := rfl

/-- C2: the Store read operations GetFailed and GetPending are both part of
the Store interface, take no arguments, and each returns a sequence of Tasks
as its first result. -/
theorem store_getters_return_task_seq :
    (∃ m, m ∈ StoreMethods ∧ m.name = "GetFailed" ∧ m.args = [] ∧
      m.rets.head? = some (GoType.slice GoType.task)) ∧
    (∃ m, m ∈ StoreMethods ∧ m.name = "GetPending" ∧ m.args = [] ∧
      m.rets.head? = some (GoType.slice GoType.task)) := by
  constructor
  · exact ⟨⟨"GetFailed", [], [GoType.slice GoType.task, GoType.error]⟩,
      by simp [StoreMethods], rfl, rfl, rfl⟩
  · exact ⟨⟨"GetPending", [], [GoType.slice GoType.task, GoType.error]⟩,
      by simp [StoreMethods], rfl, rfl, rfl⟩

/-- C3: the Executor interface consists of exactly one operation, Exec,
which takes a Task and returns a Go error value (nil on success). -/
theorem executor_exec_only :
    ExecutorMethods = [⟨"Exec", [GoType.task], [GoType.error]⟩] := rfl

/-- C4, counterexample: the claim that the Store interface exposes exactly
four operations is false — the interface declared in the source has six
methods. -/
theorem store_not_four_ops : StoreMethods.length ≠ 4 := by decide

/-- C4, amended: the Store interface exposes exactly six operations — the two
read operations GetFailed and GetPending plus the four mutating operations
MarkPending, MarkFailed, MarkDone and Close — behind which its physical
layout is hidden; every mutation of the Store goes through those four
mutating operations. -/
theorem store_six_ops :
    StoreMethods.map Method.name =
      ["GetFailed", "GetPending", "MarkPending", "MarkFailed", "MarkDone", "Close"] ∧
    StoreMethods.length = 6 := by
  constructor
  · rfl
  · rfl

end persistedretry

namespace SpecModel

/-- Modelled from the spec: the task status partition kept by the Store.
Only non-terminal statuses are stored; Done tasks are removed. -/
inductive TaskStatus
  | pending
  | failed
  deriving DecidableEq, Repr

/-- Modelled from the spec: the state of a reference Store implementation.
The repository excerpt declares only the Store interface; the spec describes
the store as the authoritative record of outstanding tasks, keyed by the
stable task key, each key in exactly one of the Pending or Failed partitions. -/
structure SpecStore where
  records : List (String × TaskStatus)
  deriving DecidableEq, Repr

/-- Modelled from the spec: MarkPending upserts the record for the key as
Pending, replacing any prior record for that key (idempotent for an
already-Pending key). -/
def MarkPending (s : SpecStore) (k : String) : Except String SpecStore :=
  Except.ok ⟨(k, TaskStatus.pending) :: s.records.filter (fun r => decide (r.1 ≠ k))⟩

/-- Modelled from the spec: MarkDone removes the record for the key and
returns success even when the key is already absent. -/
def MarkDone (s : SpecStore) (k : String) : Except String SpecStore :=
  Except.ok ⟨s.records.filter (fun r => decide (r.1 ≠ k))⟩

/-- Number of records held for a key. -/
def keyCount (s : SpecStore) (k : String) : Nat :=
  (s.records.filter (fun r => decide (r.1 = k))).length

theorem keep_then_select_nil (l : List (String × TaskStatus)) (k : String) :
    (l.filter (fun r => decide (r.1 ≠ k))).filter (fun r => decide (r.1 = k)) = [] := by
  induction l with
  | nil => rfl
  | cons a t ih =>
    by_cases h : a.1 = k <;> simp [List.filter_cons, h, ih]

/-- C5: MarkDone is idempotent at the key level — for a key absent from the
store it returns success (leaving the store unchanged) — and MarkPending on
an already-Pending key upserts without creating a duplicate record: exactly
one record for the key remains, and it is Pending. -/
theorem markDone_absent_ok_markPending_upsert :
    (∀ (s : SpecStore) (k : String), (∀ r ∈ s.records, r.1 ≠ k) →
      MarkDone s k = Except.ok s) ∧
    (∀ (s : SpecStore) (k : String), (k, TaskStatus.pending) ∈ s.records →
      ∃ t, MarkPending s k = Except.ok t ∧ keyCount t k = 1 ∧
        (k, TaskStatus.pending) ∈ t.records) := by
  constructor
  · intro s k h
    obtain ⟨l⟩ := s
    have hf : l.filter (fun r => decide (r.1 ≠ k)) = l :=
      List.filter_eq_self.mpr (fun a ha => by simpa using h a ha)
    simp only [MarkDone, hf]
  · intro s k _
    refine ⟨⟨(k, TaskStatus.pending) :: s.records.filter (fun r => decide (r.1 ≠ k))⟩,
      rfl, ?_, List.mem_cons_self _ _⟩
    simp [keyCount, List.filter_cons, keep_then_select_nil]

/-- Witness for C5 at a concrete store: MarkDone succeeds on the absent key
and MarkPending upserts the already-Pending key without duplication. -/
theorem markDone_absent_ok_markPending_upsert_witness :
    MarkDone ⟨[("blob-A", TaskStatus.pending)]⟩ "blob-B" =
      Except.ok ⟨[("blob-A", TaskStatus.pending)]⟩ ∧
    ∃ t, MarkPending ⟨[("blob-A", TaskStatus.pending)]⟩ "blob-A" = Except.ok t ∧
      keyCount t "blob-A" = 1 ∧ ("blob-A", TaskStatus.pending) ∈ t.records :=
  ⟨markDone_absent_ok_markPending_upsert.1 ⟨[("blob-A", TaskStatus.pending)]⟩ "blob-B"
      (by decide),
   markDone_absent_ok_markPending_upsert.2 ⟨[("blob-A", TaskStatus.pending)]⟩ "blob-A"
      (by decide)⟩

/-- Modelled from the spec: one scheduling step of the Retry Manager worker
pool. The state is the list of keys currently held in flight by a worker
(each held key has an active Exec call). A worker may dispatch a key only if
it is not already in flight, and a finished worker releases its key. -/
inductive MgrStep : List String → List String → Prop
  | dispatch (k : String) (s : List String) : k ∉ s → MgrStep s (k :: s)
  | finish (k : String) (s : List String) : k ∈ s → MgrStep s (s.erase k)

/-- States of the Manager reachable from startup (no key in flight). -/
inductive MgrReachable : List String → Prop
  | init : MgrReachable []
  | step {s t : List String} : MgrReachable s → MgrStep s t → MgrReachable t

theorem mgrReachable_nodup {s : List String} (h : MgrReachable s) : s.Nodup := by
  induction h with
  | init => exact List.nodup_nil
  | step _ hstep ih =>
    cases hstep with
    | dispatch k s hk => exact List.nodup_cons.mpr ⟨hk, ih⟩
    | finish k s _ => exact ih.erase k

/-- C6: per-key mutual exclusion — in every reachable state of the Manager,
each key is held in flight (with an active Exec call) at most once. -/
theorem exec_mutual_exclusion :
    ∀ s, MgrReachable s → ∀ k, s.count k ≤ 1 := by
  intro s h k
  exact List.nodup_iff_count_le_one.mp (mgrReachable_nodup h) k

/-- Witness for C6: the state reached by dispatching one key holds it at
most once. -/
theorem exec_mutual_exclusion_witness : List.count "blob-A" ["blob-A"] ≤ 1 :=
  exec_mutual_exclusion ["blob-A"]
    (MgrReachable.step MgrReachable.init (MgrStep.dispatch "blob-A" [] (by simp)))
    "blob-A"

end SpecModel

namespace agentcmd

/-- Agent CLI flags (struct Flags in agent/cmd/cmd.go, lines 38-47). Ports
are Go ints holding flag values; the zero checks only compare against 0. -/
structure Flags where
  PeerIP : String
  PeerPort : Nat
  AgentServerPort : Nat
  AgentRegistryPort : Nat
  ConfigFile : String
  Zone : String
  KrakenCluster : String
  SecretsFile : String
  deriving DecidableEq, Repr

/-- The externally visible effects performed by Run, in source order. -/
inductive Effect
  | loadConfig (path : String)
  | configureLogger
  | initMetrics
  | emitVersion
  | getLocalIP
  | newPeerContext
  | newCADownloadStore
  | newNetworkEventProducer
  | buildTrackers
  | monitorTrackers
  | buildTLS
  | newScheduler
  | buildBuildIndexes
  | newTagClient
  | newTransferer
  | buildRegistry
  | newAgentServer
  | serveAgentServer
  | serveRegistry
  | startHeartbeat
  | removeNginxLogs
  | runNginx
  deriving DecidableEq, Repr

/-- How a call of Run ends. Run in the source has no result values; the
returned constructor models a hypothetical return to the caller (with an
optional error) and is shown unreachable. panicked models panic with a
string literal (the port checks); panickedErr models panic with an error
value (the config loads); fatal models log.Fatal / log.Fatalf. -/
inductive Outcome
  | returned (err : Option String)
  | panicked (msg : String)
  | panickedErr (msg : String)
  | fatal (msg : String)
  deriving DecidableEq, Repr

/-- Results of the fallible collaborators Run calls, abstracting the
external world: configutil.Load per path, metrics.New, netutil.GetLocalIP,
core.NewPeerContext, store.NewCADownloadStore, networkevent.NewProducer,
Tracker.Build, TLS.BuildClient, NewAgentScheduler, BuildIndex.Build,
Registry.Build, and the error with which nginx.Run eventually returns. -/
structure Env where
  loadResult : String → Except String Unit
  metricsResult : Except String Unit
  localIPResult : Except String Unit
  peerCtxResult : Except String Unit
  cadsResult : Except String Unit
  neteventsResult : Except String Unit
  trackersResult : Except String Unit
  tlsResult : Except String Unit
  schedResult : Except String Unit
  buildIndexResult : Except String Unit
  registryResult : Except String Unit
  nginxResult : String

/-- A fallible step whose failure is handled by panic(err): on error the
trace stops at this effect and Run panics with the error value. -/
def stepPanic (eff : Effect) (r : Except String Unit)
    (k : Unit → List Effect × Outcome) : List Effect × Outcome :=
  match r with
  | Except.error m => ([eff], Outcome.panickedErr m)
  | Except.ok _ => (eff :: (k ()).1, (k ()).2)

/-- A fallible step whose failure is handled by log.Fatalf with the given
message prefix. -/
def stepFatal (eff : Effect) (pre : String) (r : Except String Unit)
    (k : Unit → List Effect × Outcome) : List Effect × Outcome :=
  match r with
  | Except.error m => ([eff], Outcome.fatal (pre ++ m))
  | Except.ok _ => (eff :: (k ()).1, (k ()).2)

/-- An infallible step: records the effect and continues. -/
def pureStep (eff : Effect) (k : Unit → List Effect × Outcome) :
    List Effect × Outcome :=
  (eff :: (k ()).1, (k ()).2)

/-- Run from core.NewPeerContext onwards (cmd.go lines 132-210): peer
context, CA download store, network event producer, trackers (built, then
monitored), client TLS, agent scheduler, build-index upstream, tag client,
transferer, registry, agent server, the three background goroutines, the
nginx log wipe, and finally log.Fatal(nginx.Run(...)). -/
def afterIP (env : Env) (_flags : Flags) : List Effect × Outcome :=
  stepFatal Effect.newPeerContext "Failed to create peer context: " env.peerCtxResult fun _ =>
  stepFatal Effect.newCADownloadStore "Failed to create local store: " env.cadsResult fun _ =>
  stepFatal Effect.newNetworkEventProducer "Failed to create network event producer: "
    env.neteventsResult fun _ =>
  stepFatal Effect.buildTrackers "Error building tracker upstream: " env.trackersResult fun _ =>
  pureStep Effect.monitorTrackers fun _ =>
  stepFatal Effect.buildTLS "Error building client tls config: " env.tlsResult fun _ =>
  stepFatal Effect.newScheduler "Error creating scheduler: " env.schedResult fun _ =>
  stepFatal Effect.buildBuildIndexes "Error building build-index upstream: "
    env.buildIndexResult fun _ =>
  pureStep Effect.newTagClient fun _ =>
  pureStep Effect.newTransferer fun _ =>
  stepFatal Effect.buildRegistry "Failed to init registry: " env.registryResult fun _ =>
  pureStep Effect.newAgentServer fun _ =>
  pureStep Effect.serveAgentServer fun _ =>
  pureStep Effect.serveRegistry fun _ =>
  pureStep Effect.startHeartbeat fun _ =>
  pureStep Effect.removeNginxLogs fun _ =>
  ([Effect.runNginx], Outcome.fatal env.nginxResult)

/-- Run after the config and secrets loads (cmd.go lines 113-130): logger
configuration, metrics (fatal on error), the version-emitting goroutine, and
the local-IP lookup performed only when PeerIP is empty (fatal on error). -/
def afterLoads (env : Env) (flags : Flags) : List Effect × Outcome :=
  pureStep Effect.configureLogger fun _ =>
  stepFatal Effect.initMetrics "Failed to init metrics: " env.metricsResult fun _ =>
  pureStep Effect.emitVersion fun _ =>
  if flags.PeerIP = "" then
    stepFatal Effect.getLocalIP "Error getting local ip: " env.localIPResult fun _ =>
      afterIP env flags
  else afterIP env flags

/-- Run (cmd.go lines 93-211): the three port checks panic with string
messages before any other effect; then the config file is loaded (panic on
error), the secrets file is loaded only when SecretsFile is non-empty
(panic on error), and initialization continues in afterLoads. The returned
pair is the trace of effects performed and the way the call ends. -/
def Run (env : Env) (flags : Flags) : List Effect × Outcome :=
  if flags.PeerPort = 0 then ([], Outcome.panicked "must specify non-zero peer port")
  else if flags.AgentServerPort = 0 then
    ([], Outcome.panicked "must specify non-zero agent server port")
  else if flags.AgentRegistryPort = 0 then
    ([], Outcome.panicked "must specify non-zero agent registry port")
  else
    stepPanic (Effect.loadConfig flags.ConfigFile) (env.loadResult flags.ConfigFile) fun _ =>
      if flags.SecretsFile ≠ "" then
        stepPanic (Effect.loadConfig flags.SecretsFile) (env.loadResult flags.SecretsFile)
          fun _ => afterLoads env flags
      else afterLoads env flags

/-- State of the heartbeat goroutine (cmd.go lines 215-220): the value of
the heartbeat counter and the seconds slept so far. -/
structure HeartbeatState where
  counter : Nat
  elapsedSeconds : Nat
  deriving DecidableEq, Repr

/-- Loop guard of the heartbeat loop: the source loop is `for` with no
condition, no break and no cancellation, so the guard is constantly true. -/
def heartbeatCond (_s : HeartbeatState) : Bool := true

/-- One iteration of the heartbeat loop body: increment the counter by 1,
then sleep 10 seconds. -/
def heartbeatBody (s : HeartbeatState) : HeartbeatState :=
  { counter := s.counter + 1, elapsedSeconds := s.elapsedSeconds + 10 }

/-- The heartbeat goroutine after n loop iterations, starting from a zero
counter at time zero. -/
def heartbeat : Nat → HeartbeatState
  | 0 => ⟨0, 0⟩
  | Nat.succ n => heartbeatBody (heartbeat n)

/-- All three port flags are non-zero (the preconditions checked at the top
of Run). -/
def portsOk (flags : Flags) : Prop :=
  flags.PeerPort ≠ 0 ∧ flags.AgentServerPort ≠ 0 ∧ flags.AgentRegistryPort ≠ 0

instance (flags : Flags) : Decidable (portsOk flags) := by
  unfold portsOk
  infer_instance

/-- Every configutil.Load call in this environment succeeds. -/
def loadsOk (env : Env) : Prop := ∀ p, env.loadResult p = Except.ok ()

theorem stepFatal_snd_fatal (eff : Effect) (pre : String) (r : Except String Unit)
    (k : Unit → List Effect × Outcome) (h : ∃ m, (k ()).2 = Outcome.fatal m) :
    ∃ m, (stepFatal eff pre r k).2 = Outcome.fatal m := by
  cases r with
  | error m => exact ⟨pre ++ m, rfl⟩
  | ok u => exact h

theorem afterIP_fatal (env : Env) (flags : Flags) :
    ∃ m, (afterIP env flags).2 = Outcome.fatal m := by
  unfold afterIP
  simp only [pureStep]
  apply stepFatal_snd_fatal
  apply stepFatal_snd_fatal
  apply stepFatal_snd_fatal
  apply stepFatal_snd_fatal
  apply stepFatal_snd_fatal
  apply stepFatal_snd_fatal
  apply stepFatal_snd_fatal
  apply stepFatal_snd_fatal
  exact ⟨env.nginxResult, rfl⟩

theorem afterLoads_fatal (env : Env) (flags : Flags) :
    ∃ m, (afterLoads env flags).2 = Outcome.fatal m := by
  unfold afterLoads
  simp only [pureStep]
  apply stepFatal_snd_fatal
  by_cases hip : flags.PeerIP = ""
  · simp only [hip, if_true, ite_true]
    apply stepFatal_snd_fatal
    exact afterIP_fatal env flags
  · rw [if_neg hip]
    exact afterIP_fatal env flags

theorem Run_shape_nonzero (env : Env) (flags : Flags)
    (h1 : flags.PeerPort ≠ 0) (h2 : flags.AgentServerPort ≠ 0)
    (h3 : flags.AgentRegistryPort ≠ 0) :
    (∃ m, (Run env flags).2 = Outcome.panickedErr m) ∨
    (∃ m, (Run env flags).2 = Outcome.fatal m) := by
  rcases hl : env.loadResult flags.ConfigFile with m | u
  · exact Or.inl ⟨m, by simp [Run, h1, h2, h3, stepPanic, hl]⟩
  by_cases hs : flags.SecretsFile = ""
  · obtain ⟨m, hm⟩ := afterLoads_fatal env flags
    refine Or.inr ⟨m, ?_⟩
    simp only [Run, h1, h2, h3, if_neg, stepPanic, hl, hs]
    simp [hs]
    exact hm
  · rcases hl2 : env.loadResult flags.SecretsFile with m2 | u2
    · exact Or.inl ⟨m2, by simp [Run, h1, h2, h3, stepPanic, hl, hl2, hs]⟩
    · obtain ⟨m, hm⟩ := afterLoads_fatal env flags
      refine Or.inr ⟨m, ?_⟩
      simp [Run, h1, h2, h3, stepPanic, hl, hl2, hs]
      exact hm

theorem Run_shape (env : Env) (flags : Flags) :
    (∃ m, (Run env flags).2 = Outcome.panicked m) ∨
    (∃ m, (Run env flags).2 = Outcome.panickedErr m) ∨
    (∃ m, (Run env flags).2 = Outcome.fatal m) := by
  by_cases h1 : flags.PeerPort = 0
  · exact Or.inl ⟨"must specify non-zero peer port", by simp [Run, h1]⟩
  by_cases h2 : flags.AgentServerPort = 0
  · exact Or.inl ⟨"must specify non-zero agent server port", by simp [Run, h1, h2]⟩
  by_cases h3 : flags.AgentRegistryPort = 0
  · exact Or.inl ⟨"must specify non-zero agent registry port", by simp [Run, h1, h2, h3]⟩
  rcases Run_shape_nonzero env flags h1 h2 h3 with h | h
  · exact Or.inr (Or.inl h)
  · exact Or.inr (Or.inr h)

/-- C7: the heartbeat loop is unbounded — after any number n of iterations
the loop guard still holds (there is no termination or cancellation path),
the counter has been incremented exactly n times, and the loop has slept 10
seconds per iteration. -/
theorem heartbeat_unbounded :
    ∀ n : Nat, heartbeatCond (heartbeat n) = true ∧
      (heartbeat n).counter = n ∧ (heartbeat n).elapsedSeconds = 10 * n := by
  intro n
  refine ⟨rfl, ?_⟩
  induction n with
  | zero => exact ⟨rfl, rfl⟩
  | succ n ih =>
    refine ⟨?_, ?_⟩
    · simp [heartbeat, heartbeatBody, ih.1]
    · simp [heartbeat, heartbeatBody, ih.2]
      ring

/-- C8: initialization is sequential build-or-abort. Run has no return path
(it never returns to its caller, with or without an error value), and every
failure of a construction step terminates the process at that step: a failed
config or secrets load panics immediately with the load error, and a failure
of metrics, peer context, local store, network events, trackers, TLS,
scheduler, build-index or registry construction terminates with the
corresponding fatal log before nginx is ever run. -/
theorem run_build_or_abort :
    (∀ (env : Env) (flags : Flags) (e : Option String),
      (Run env flags).2 ≠ Outcome.returned e) ∧
    (∀ (env : Env) (flags : Flags) (m : String), portsOk flags →
      env.loadResult flags.ConfigFile = Except.error m →
      Run env flags = ([Effect.loadConfig flags.ConfigFile], Outcome.panickedErr m)) ∧
    (∀ (env : Env) (flags : Flags) (m : String), portsOk flags → loadsOk env →
      env.metricsResult = Except.error m →
      (Run env flags).2 = Outcome.fatal ("Failed to init metrics: " ++ m) ∧
        Effect.runNginx ∉ (Run env flags).1) ∧
    (∀ (env : Env) (flags : Flags) (m : String), portsOk flags → loadsOk env →
      env.metricsResult = Except.ok () → env.localIPResult = Except.ok () →
      env.peerCtxResult = Except.error m →
      (Run env flags).2 = Outcome.fatal ("Failed to create peer context: " ++ m) ∧
        Effect.runNginx ∉ (Run env flags).1) ∧
    (∀ (env : Env) (flags : Flags) (m : String), portsOk flags → loadsOk env →
      env.metricsResult = Except.ok () → env.localIPResult = Except.ok () →
      env.peerCtxResult = Except.ok () →
      env.cadsResult = Except.error m →
      (Run env flags).2 = Outcome.fatal ("Failed to create local store: " ++ m) ∧
        Effect.runNginx ∉ (Run env flags).1) ∧
    (∀ (env : Env) (flags : Flags) (m : String), portsOk flags → loadsOk env →
      env.metricsResult = Except.ok () → env.localIPResult = Except.ok () →
      env.peerCtxResult = Except.ok () → env.cadsResult = Except.ok () →
      env.neteventsResult = Except.error m →
      (Run env flags).2 = Outcome.fatal ("Failed to create network event producer: " ++ m) ∧
        Effect.runNginx ∉ (Run env flags).1) ∧
    (∀ (env : Env) (flags : Flags) (m : String), portsOk flags → loadsOk env →
      env.metricsResult = Except.ok () → env.localIPResult = Except.ok () →
      env.peerCtxResult = Except.ok () → env.cadsResult = Except.ok () →
      env.neteventsResult = Except.ok () →
      env.trackersResult = Except.error m →
      (Run env flags).2 = Outcome.fatal ("Error building tracker upstream: " ++ m) ∧
        Effect.runNginx ∉ (Run env flags).1) ∧
    (∀ (env : Env) (flags : Flags) (m : String), portsOk flags → loadsOk env →
      env.metricsResult = Except.ok () → env.localIPResult = Except.ok () →
      env.peerCtxResult = Except.ok () → env.cadsResult = Except.ok () →
      env.neteventsResult = Except.ok () → env.trackersResult = Except.ok () →
      env.tlsResult = Except.error m →
      (Run env flags).2 = Outcome.fatal ("Error building client tls config: " ++ m) ∧
        Effect.runNginx ∉ (Run env flags).1) ∧
    (∀ (env : Env) (flags : Flags) (m : String), portsOk flags → loadsOk env →
      env.metricsResult = Except.ok () → env.localIPResult = Except.ok () →
      env.peerCtxResult = Except.ok () → env.cadsResult = Except.ok () →
      env.neteventsResult = Except.ok () → env.trackersResult = Except.ok () →
      env.tlsResult = Except.ok () →
      env.schedResult = Except.error m →
      (Run env flags).2 = Outcome.fatal ("Error creating scheduler: " ++ m) ∧
        Effect.runNginx ∉ (Run env flags).1) ∧
    (∀ (env : Env) (flags : Flags) (m : String), portsOk flags → loadsOk env →
      env.metricsResult = Except.ok () → env.localIPResult = Except.ok () →
      env.peerCtxResult = Except.ok () → env.cadsResult = Except.ok () →
      env.neteventsResult = Except.ok () → env.trackersResult = Except.ok () →
      env.tlsResult = Except.ok () → env.schedResult = Except.ok () →
      env.buildIndexResult = Except.error m →
      (Run env flags).2 = Outcome.fatal ("Error building build-index upstream: " ++ m) ∧
        Effect.runNginx ∉ (Run env flags).1) ∧
    (∀ (env : Env) (flags : Flags) (m : String), portsOk flags → loadsOk env →
      env.metricsResult = Except.ok () → env.localIPResult = Except.ok () →
      env.peerCtxResult = Except.ok () → env.cadsResult = Except.ok () →
      env.neteventsResult = Except.ok () → env.trackersResult = Except.ok () →
      env.tlsResult = Except.ok () → env.schedResult = Except.ok () →
      env.buildIndexResult = Except.ok () →
      env.registryResult = Except.error m →
      (Run env flags).2 = Outcome.fatal ("Failed to init registry: " ++ m) ∧
        Effect.runNginx ∉ (Run env flags).1) := by
  refine ⟨?_, ?_, ?_, ?_, ?_, ?_, ?_, ?_, ?_, ?_, ?_⟩
  · intro env flags e
    rcases Run_shape env flags with ⟨m, hm⟩ | ⟨m, hm⟩ | ⟨m, hm⟩ <;> simp [hm]
  · intro env flags m hp hload
    obtain ⟨h1, h2, h3⟩ := hp
    simp [Run, stepPanic, h1, h2, h3, hload]
  · intro env flags m hp hl hmet
    obtain ⟨h1, h2, h3⟩ := hp
    simp only [loadsOk] at hl
    by_cases hs : flags.SecretsFile = "" <;>
      simp [Run, afterLoads, stepPanic, stepFatal, pureStep, h1, h2, h3, hs, hl, hmet]
  · intro env flags m hp hl hmet hip hpc
    obtain ⟨h1, h2, h3⟩ := hp
    simp only [loadsOk] at hl
    by_cases hs : flags.SecretsFile = "" <;> by_cases hpi : flags.PeerIP = "" <;>
      simp [Run, afterLoads, afterIP, stepPanic, stepFatal, pureStep,
        h1, h2, h3, hs, hpi, hl, hmet, hip, hpc]
  · intro env flags m hp hl hmet hip hpc hcads
    obtain ⟨h1, h2, h3⟩ := hp
    simp only [loadsOk] at hl
    by_cases hs : flags.SecretsFile = "" <;> by_cases hpi : flags.PeerIP = "" <;>
      simp [Run, afterLoads, afterIP, stepPanic, stepFatal, pureStep,
        h1, h2, h3, hs, hpi, hl, hmet, hip, hpc, hcads]
  · intro env flags m hp hl hmet hip hpc hcads hne
    obtain ⟨h1, h2, h3⟩ := hp
    simp only [loadsOk] at hl
    by_cases hs : flags.SecretsFile = "" <;> by_cases hpi : flags.PeerIP = "" <;>
      simp [Run, afterLoads, afterIP, stepPanic, stepFatal, pureStep,
        h1, h2, h3, hs, hpi, hl, hmet, hip, hpc, hcads, hne]
  · intro env flags m hp hl hmet hip hpc hcads hne htr
    obtain ⟨h1, h2, h3⟩ := hp
    simp only [loadsOk] at hl
    by_cases hs : flags.SecretsFile = "" <;> by_cases hpi : flags.PeerIP = "" <;>
      simp [Run, afterLoads, afterIP, stepPanic, stepFatal, pureStep,
        h1, h2, h3, hs, hpi, hl, hmet, hip, hpc, hcads, hne, htr]
  · intro env flags m hp hl hmet hip hpc hcads hne htr htls
    obtain ⟨h1, h2, h3⟩ := hp
    simp only [loadsOk] at hl
    by_cases hs : flags.SecretsFile = "" <;> by_cases hpi : flags.PeerIP = "" <;>
      simp [Run, afterLoads, afterIP, stepPanic, stepFatal, pureStep,
        h1, h2, h3, hs, hpi, hl, hmet, hip, hpc, hcads, hne, htr, htls]
  · intro env flags m hp hl hmet hip hpc hcads hne htr htls hsc
    obtain ⟨h1, h2, h3⟩ := hp
    simp only [loadsOk] at hl
    by_cases hs : flags.SecretsFile = "" <;> by_cases hpi : flags.PeerIP = "" <;>
      simp [Run, afterLoads, afterIP, stepPanic, stepFatal, pureStep,
        h1, h2, h3, hs, hpi, hl, hmet, hip, hpc, hcads, hne, htr, htls, hsc]
  · intro env flags m hp hl hmet hip hpc hcads hne htr htls hsc hbi
    obtain ⟨h1, h2, h3⟩ := hp
    simp only [loadsOk] at hl
    by_cases hs : flags.SecretsFile = "" <;> by_cases hpi : flags.PeerIP = "" <;>
      simp [Run, afterLoads, afterIP, stepPanic, stepFatal, pureStep,
        h1, h2, h3, hs, hpi, hl, hmet, hip, hpc, hcads, hne, htr, htls, hsc, hbi]
  · intro env flags m hp hl hmet hip hpc hcads hne htr htls hsc hbi hreg
    obtain ⟨h1, h2, h3⟩ := hp
    simp only [loadsOk] at hl
    by_cases hs : flags.SecretsFile = "" <;> by_cases hpi : flags.PeerIP = "" <;>
      simp [Run, afterLoads, afterIP, stepPanic, stepFatal, pureStep,
        h1, h2, h3, hs, hpi, hl, hmet, hip, hpc, hcads, hne, htr, htls, hsc, hbi, hreg]

/-- Environment in which every construction step succeeds. -/
def allOkEnv : Env :=
  { loadResult := fun _ => Except.ok ()
    metricsResult := Except.ok ()
    localIPResult := Except.ok ()
    peerCtxResult := Except.ok ()
    cadsResult := Except.ok ()
    neteventsResult := Except.ok ()
    trackersResult := Except.ok ()
    tlsResult := Except.ok ()
    schedResult := Except.ok ()
    buildIndexResult := Except.ok ()
    registryResult := Except.ok ()
    nginxResult := "nginx exited" }

/-- Environment in which scheduler construction fails. -/
def schedFailEnv : Env := { allOkEnv with schedResult := Except.error "boom" }

/-- Concrete flags with all three ports non-zero. -/
def someFlags : Flags :=
  { PeerIP := "10.0.0.1", PeerPort := 1, AgentServerPort := 2, AgentRegistryPort := 3,
    ConfigFile := "agent.yaml", Zone := "z1", KrakenCluster := "c1",
    SecretsFile := "secrets.yaml" }

/-- Concrete flags with a zero peer port. -/
def zeroPortFlags : Flags := { someFlags with PeerPort := 0 }

/-- Witness for C8 at a concrete input: when scheduler construction fails,
Run ends with the scheduler fatal log and nginx is never run. -/
theorem run_build_or_abort_witness :
    (Run schedFailEnv someFlags).2 = Outcome.fatal ("Error creating scheduler: " ++ "boom") ∧
    Effect.runNginx ∉ (Run schedFailEnv someFlags).1 :=
  run_build_or_abort.2.2.2.2.2.2.2.2.1 schedFailEnv someFlags "boom"
    (by decide) (fun p => rfl) rfl rfl rfl rfl rfl rfl rfl rfl

/-- C9: Run validates the three port flags before any other effect — if any
of PeerPort, AgentServerPort or AgentRegistryPort is zero, Run panics having
performed no effect at all (in particular no configuration file load) — and
when all three are non-zero, no string panic (the form the three port panics
take) is reachable. -/
theorem run_port_validation :
    ∀ (env : Env) (flags : Flags),
      ((flags.PeerPort = 0 ∨ flags.AgentServerPort = 0 ∨ flags.AgentRegistryPort = 0) →
        (Run env flags).1 = [] ∧ ∃ m, (Run env flags).2 = Outcome.panicked m) ∧
      (flags.PeerPort ≠ 0 → flags.AgentServerPort ≠ 0 → flags.AgentRegistryPort ≠ 0 →
        ∀ m, (Run env flags).2 ≠ Outcome.panicked m) := by
  intro env flags
  constructor
  · intro hz
    by_cases h1 : flags.PeerPort = 0
    · exact ⟨by simp [Run, h1],
        ⟨"must specify non-zero peer port", by simp [Run, h1]⟩⟩
    by_cases h2 : flags.AgentServerPort = 0
    · exact ⟨by simp [Run, h1, h2],
        ⟨"must specify non-zero agent server port", by simp [Run, h1, h2]⟩⟩
    by_cases h3 : flags.AgentRegistryPort = 0
    · exact ⟨by simp [Run, h1, h2, h3],
        ⟨"must specify non-zero agent registry port", by simp [Run, h1, h2, h3]⟩⟩
    · rcases hz with h | h | h <;> contradiction
  · intro h1 h2 h3 m
    rcases Run_shape_nonzero env flags h1 h2 h3 with ⟨m2, hm⟩ | ⟨m2, hm⟩ <;> simp [hm]

/-- Witness for C9 at concrete inputs: a zero peer port panics with an empty
trace, and with all ports non-zero no string panic occurs. -/
theorem run_port_validation_witness :
    ((Run allOkEnv zeroPortFlags).1 = [] ∧
      ∃ m, (Run allOkEnv zeroPortFlags).2 = Outcome.panicked m) ∧
    (∀ m, (Run allOkEnv someFlags).2 ≠ Outcome.panicked m) :=
  ⟨(run_port_validation allOkEnv zeroPortFlags).1 (Or.inl rfl),
   (run_port_validation allOkEnv someFlags).2 (by decide) (by decide) (by decide)⟩

/-- C10: once the port checks pass, the very first effect of Run is loading
the file named by ConfigFile, unconditionally; and provided that load
succeeds, the file named by SecretsFile is loaded — as the second effect,
strictly after the config-file load, into the same configuration — exactly
when SecretsFile is non-empty. -/
theorem run_config_loading :
    ∀ (env : Env) (flags : Flags),
      flags.PeerPort ≠ 0 → flags.AgentServerPort ≠ 0 → flags.AgentRegistryPort ≠ 0 →
      (Run env flags).1.head? = some (Effect.loadConfig flags.ConfigFile) ∧
      (env.loadResult flags.ConfigFile = Except.ok () →
        (((Run env flags).1)[1]? = some (Effect.loadConfig flags.SecretsFile) ↔
          flags.SecretsFile ≠ "")) := by
  intro env flags h1 h2 h3
  constructor
  · rcases hl : env.loadResult flags.ConfigFile with m | u <;>
      simp [Run, stepPanic, h1, h2, h3, hl]
  · intro hok
    by_cases hs : flags.SecretsFile = ""
    · simp [Run, stepPanic, afterLoads, pureStep, h1, h2, h3, hok, hs]
    · rcases hl2 : env.loadResult flags.SecretsFile with m2 | u2 <;>
        simp [Run, stepPanic, h1, h2, h3, hok, hs, hl2]

/-- Witness for C10 at a concrete input: the config file is loaded first and
the non-empty secrets file is loaded second. -/
theorem run_config_loading_witness :
    (Run allOkEnv someFlags).1.head? = some (Effect.loadConfig "agent.yaml") ∧
    (((Run allOkEnv someFlags).1)[1]? = some (Effect.loadConfig "secrets.yaml") ↔
      ("secrets.yaml" : String) ≠ "") := by
  have h := run_config_loading allOkEnv someFlags (by decide) (by decide) (by decide)
  exact ⟨h.1, h.2 rfl⟩

end agentcmd
